import Mathlib

/-!
Shallow embedding of the `ibp` web application's view handlers
(`src/ibp/views.py`) and marshmallow schemas (`src/ibp/schemas.py`).

Conventions used throughout:
* machine dates are triples of naturals (year, month, day);
* the database is passed explicitly as lists of rows; each handler is a pure
  function from its inputs (and the relevant database slice) to a response
  value, returning the updated state where the handler mutates it;
* `datetime.date.today()` / `datetime.now()` are extra explicit arguments;
* fallible paths (HTTP 400/404/500) are constructors of a response type.
-/

namespace Ibp

/-- A calendar date (year, month, day), the embedding of `datetime.date`. -/
structure MDate where
  y : Nat
  m : Nat
  d : Nat
deriving DecidableEq

/-- Gregorian leap-year rule, as implemented by Python's `datetime`. -/
def isLeap (y : Nat) : Bool :=
  y % 4 == 0 && (y % 100 != 0 || y % 400 == 0)

/-- Number of days in a month, as validated by Python's `datetime.date`. -/
def daysInMonth (y m : Nat) : Nat :=
  if m = 2 then (if isLeap y then 29 else 28)
  else if m = 4 ∨ m = 6 ∨ m = 9 ∨ m = 11 then 30
  else 31

/-- Value of an ASCII decimal digit character, `none` for anything else. -/
def digitVal (c : Char) : Option Nat :=
  if c.isDigit then some (c.toNat - 48) else none

/-- Two-digit decimal number from two characters. -/
def digits2 (a b : Char) : Option Nat := do
  pure ((← digitVal a) * 10 + (← digitVal b))

/-- Four-digit decimal number from four characters. -/
def digits4 (a b c d : Char) : Option Nat := do
  pure (((← digitVal a) * 1000) + ((← digitVal b) * 100) +
        ((← digitVal c) * 10) + (← digitVal d))

/-- Calendar validation performed by the `datetime.date` constructor:
years start at 1 (`MINYEAR`), months lie in 1..12, days in 1..days-in-month.
Returns `none` exactly when the constructor raises `ValueError`. -/
def mkDate (y m d : Nat) : Option MDate :=
  if 1 ≤ y ∧ 1 ≤ m ∧ m ≤ 12 ∧ 1 ≤ d ∧ d ≤ daysInMonth y m then
    some ⟨y, m, d⟩
  else
    none

/-- Embedding of `datetime.strptime(s, "%Y-%m-%d").date()` (views.py:114).
CPython's `_strptime` matches `%Y` against exactly four digits and `%m`/`%d`
against one or two digits (with leading-zero forms bounded by 12/31), demands
that the whole string is consumed, and then the `datetime` constructor
validates the calendar date.  `none` models the raised `ValueError`. -/
def parseDate (s : String) : Option MDate :=
  match s.data with
  | [a, b, c, d, '-', e, f, '-', g, h] => do
      mkDate (← digits4 a b c d) (← digits2 e f) (← digits2 g h)
  | [a, b, c, d, '-', e, f, '-', g] => do
      mkDate (← digits4 a b c d) (← digits2 e f) (← digitVal g)
  | [a, b, c, d, '-', e, '-', g, h] => do
      mkDate (← digits4 a b c d) (← digitVal e) (← digits2 g h)
  | [a, b, c, d, '-', e, '-', g] => do
      mkDate (← digits4 a b c d) (← digitVal e) (← digitVal g)
  | _ => none

/-- Embedding of `datetime.date.fromisoformat`, which marshmallow's
`fields.Date` uses for its default ISO format: exactly `YYYY-MM-DD`,
zero padded, calendar validated. -/
def isoParseDate (s : String) : Option MDate :=
  match s.data with
  | [a, b, c, d, '-', e, f, '-', g, h] => do
      mkDate (← digits4 a b c d) (← digits2 e f) (← digits2 g h)
  | _ => none

/-- Decimal rendering of `n`, zero-padded on the left to width `w`
(the semantics of Python's `"%0wd"` and of SQLite's `strftime` fields). -/
def pad (w n : Nat) : String :=
  let s := toString n
  ⟨List.replicate (w - s.data.length) '0' ++ s.data⟩

/-- Embedding of `date.strftime("%Y-%m-%d")` (views.py:118). -/
def fmtDate (d : MDate) : String :=
  pad 4 d.y ++ "-" ++ pad 2 d.m ++ "-" ++ pad 2 d.d

/-- Embedding of SQLite `strftime('%Y', date)`: the zero-padded year. -/
def fmtY (d : MDate) : String :=
  pad 4 d.y

/-- Embedding of SQLite `strftime('%Y-%m', date)`: zero-padded year-month. -/
def fmtYM (d : MDate) : String :=
  pad 4 d.y ++ "-" ++ pad 2 d.m

/-! ### view_inmate (views.py:85-105)

The handler runs `del inmate.lookups[2:]` — which keeps the list elements at
indices 0 and 1, i.e. `List.take 2` — and then appends `datetime.now()`.
Modelled from the spec: the lookup list is kept most-recent-first (its
ordering is declared in `models.py`, which is not part of the excerpt; the
spec states the truncation "retains only the most recent entries"), so the
retained prefix `take 2` is the two most recent entries.  Timestamps are
abstracted as naturals. -/

/-- The lookup-history update performed by `view_inmate` on every view:
`del inmate.lookups[2:]` followed by `inmate.lookups.append(now)`. -/
def view_inmate_lookups (lookups : List Nat) (now : Nat) : List Nat :=
  lookups.take 2 ++ [now]

/-! ### add_request (views.py:108-140) -/

/-- A row of the `requests` table as created by `add_request`. -/
structure RequestRow where
  action : String
  datePostmarked : MDate
  dateProcessed : MDate
deriving DecidableEq

/-- The state touched by `add_request`: the inmate's request list and the
Flask session's cached `postmarkdate` string. -/
structure AddState where
  requests : List RequestRow
  sessionPostmark : Option String
deriving DecidableEq

/-- Response of `add_request`: a 400 with a message, or the JSON envelope. -/
inductive AddResp where
  | badRequest (msg : String)
  | okJson
deriving DecidableEq

/-- Embedding of `add_request` (views.py:108-140).  `dateStr` is the posted
`postmarkdate` form field, `actionField` the optional `action` form field
(`none` when the client did not specify one), `today` is `date.today()` at
handling time, i.e. the submission date. -/
def add_request (st : AddState) (dateStr : String) (actionField : Option String)
    (today : MDate) : AddResp × AddState :=
  match parseDate dateStr with
  | none =>
      (.badRequest "Please enter the USPS postmark date on the envelope.", st)
  | some postmarkdate =>
      let st1 : AddState := { st with sessionPostmark := some (fmtDate postmarkdate) }
      let action := actionField.getD "Filled"
      let req : RequestRow :=
        { action := action, datePostmarked := postmarkdate, dateProcessed := today }
      (.okJson, { st1 with requests := st1.requests ++ [req] })

/-! ### search_inmates (views.py:39-82)

Only the post-validation dispatch (lines 62-82) is modelled: by that point the
handler holds a list of provider error strings (each flashed as
`alert-warning`) and the materialised list of matching inmates.  The provider
queries and form validation live in `models.py`/`flask_forms.py`, outside the
excerpt. -/

/-- The slice of an inmate row the search dispatch uses: its `autoid`. -/
structure InmateRow where
  autoid : Nat
deriving DecidableEq, Inhabited

/-- Page produced by the search dispatch. -/
inductive SearchPage where
  | searchForm
  | redirectView (autoid : Nat)
  | listInmates (inmates : List InmateRow)
deriving DecidableEq

/-- Response of the search dispatch: flashed messages plus the page. -/
structure SearchResult where
  flashes : List String
  page : SearchPage
deriving DecidableEq

/-- Embedding of the result dispatch of `search_inmates` (views.py:62-82):
flash every provider error; with no matches flash a warning and re-render the
form; with exactly one match redirect to `view_inmate` of `inmates[0]`;
otherwise render the list view. -/
def search_inmates_dispatch (errors : List String) (inmates : List InmateRow) :
    SearchResult :=
  if inmates.isEmpty then
    ⟨errors ++ ["no inmates matched your search"], .searchForm⟩
  else if inmates.length == 1 then
    ⟨errors, .redirectView inmates.headI.autoid⟩
  else
    ⟨errors, .listInmates inmates⟩

/-! ### request_info (views.py:236-254) -/

/-- A prison unit, with the fields the modelled handlers read. -/
structure UnitT where
  name : String
  street1 : String
  shipping_method : String
deriving DecidableEq

/-- The inmate fields projected by `request_info`. -/
structure InmateInfo where
  jurisdiction : String
  first_name : String
  last_name : String
  id : Nat
  unit : Option UnitT
deriving DecidableEq

/-- A request row as read by `request_info`: its `autoid` and its (nullable)
inmate reference. -/
structure ReqInfoRec where
  autoid : Nat
  inmate : Option InmateInfo
deriving DecidableEq

/-- The JSON object returned by `request_info`. -/
structure InfoJson where
  inmate_jurisdiction : String
  inmate_name : String
  inmate_id : String
  package_id : Nat
  unit_name : String
  unit_shipping_method : String
deriving DecidableEq

/-- Response of `request_info`. -/
inductive InfoResp where
  | badRequest (msg : String)
  | okJson (j : InfoJson)
deriving DecidableEq

/-- Python's `x and x.f or dflt` idiom on a nullable reference, where the
attribute is a string: `None` and the empty string are both falsy, so either
yields `dflt`. -/
def pyStrOr (x : Option String) (dflt : String) : String :=
  match x with
  | none => dflt
  | some s => if s = "" then dflt else s

/-- Embedding of `request_info` (views.py:236-254).  The `first_or_404`
lookup of the request itself is outside the model: the handler is applied to
the request row it found. -/
def request_info (r : ReqInfoRec) : InfoResp :=
  match r.inmate with
  | none => .badRequest "Request does not have an associated inmate"
  | some inm =>
      .okJson
        { inmate_jurisdiction := inm.jurisdiction
          inmate_name := inm.last_name ++ ", " ++ inm.first_name
          inmate_id := pad 8 inm.id
          package_id := r.autoid
          unit_name := pyStrOr (inm.unit.map (·.street1)) "N/A"
          unit_shipping_method := pyStrOr (inm.unit.map (·.shipping_method)) "N/A" }

/-! ### ship_requests (views.py:407-452)

The handler builds `requests = map(get_request_from_autoid, request_ids)` — a
one-shot Python iterator over the deduplicated ids.  The call
`next(r.inmate.unit for r in requests if r.inmate.unit is not None)` consumes
that iterator up to and including the first request whose inmate has a unit
(raising `StopIteration`, an HTTP 500, when there is none); the subsequent
`for request in requests` loop consumes only the remaining elements; finally
`models.Shipment(requests=requests, ...)` iterates what is left of the same
iterator.  The iterator is therefore threaded through the model explicitly as
the list of ids not yet consumed.  `inmate.try_fetch_update()` (an external
provider refresh, defined outside the excerpt) is modelled as a no-op. -/

/-- The inmate slice `ship_requests` reads: its (nullable) unit. -/
structure ShipInmate where
  unit : Option UnitT
deriving DecidableEq

/-- A request row as read by `ship_requests`. -/
structure ShipReqRec where
  autoid : Nat
  inmate : ShipInmate
deriving DecidableEq

/-- A shipment row as created by `ship_requests`; `requests` holds the
autoids of the request rows linked to the shipment. -/
structure Shipment where
  requests : List Nat
  dateShipped : MDate
  unit : UnitT
  weight : Nat
  postage : Nat
  trackingCode : String
deriving DecidableEq

/-- Response of `ship_requests`.  `notFound` is `first_or_404` aborting with
HTTP 404; `serverError` is the uncaught `StopIteration` (HTTP 500). -/
inductive ShipResp where
  | notFound
  | serverError
  | badRequest (msg : String)
  | ok (s : Shipment)
deriving DecidableEq

/-- Embedding of `get_request_from_autoid` minus the 404 abort: look up a
request row by `autoid`. -/
def getRequest (db : List ShipReqRec) (autoid : Nat) : Option ShipReqRec :=
  db.find? (fun r => r.autoid == autoid)

/-- Embedding of `next(r.inmate.unit for r in requests if r.inmate.unit is
not None)` (views.py:425): pull requests off the iterator until the first one
whose inmate has a unit, returning that unit and the unconsumed rest of the
iterator.  An exhausted iterator raises `StopIteration` (HTTP 500). -/
def findUnitNext (db : List ShipReqRec) : List Nat → Except ShipResp (UnitT × List Nat)
  | [] => .error .serverError
  | id :: rest =>
      match getRequest db id with
      | none => .error .notFound
      | some r =>
          match r.inmate.unit with
          | some u => .ok (u, rest)
          | none => findUnitNext db rest

/-- Embedding of the `for request in requests` validation loop
(views.py:427-439) over the unconsumed remainder of the iterator, returning
what is left of the iterator afterwards (always `[]` on success).  The
`"%d"`-with-`.format` slip in the source leaves the literal `%d` in the first
message. -/
def validateLoop (db : List ShipReqRec) (u : UnitT) :
    List Nat → Except ShipResp (List Nat)
  | [] => .ok []
  | id :: rest =>
      match getRequest db id with
      | none => .error .notFound
      | some r =>
          match r.inmate.unit with
          | none => .error (.badRequest "inmate for request %d is unassigned")
          | some u2 =>
              if u2.name ≠ u.name then
                .error (.badRequest
                  ("inmates are not all assigned to '" ++ u.name ++ "' unit"))
              else
                validateLoop db u rest

/-- Embedding of `ship_requests` (views.py:407-452) after form validation.
`ids` is the deduplicated list of submitted request identifiers in the
iteration order of the Python `set`; `today` is `date.today()`.  On success
the created shipment's `requests` collection is whatever remains of the
iterator — the source's `models.Shipment(requests=requests, ...)`. -/
def ship_requests (db : List ShipReqRec) (ids : List Nat)
    (weight postage : Nat) (tracking : String) (today : MDate) : ShipResp :=
  match findUnitNext db ids with
  | .error e => e
  | .ok (u, rest) =>
      match validateLoop db u rest with
      | .error e => e
      | .ok leftover =>
          .ok { requests := leftover, dateShipped := today, unit := u,
                weight := weight, postage := postage, trackingCode := tracking }

/-! ### marshmallow schemas (schemas.py:44-70)

`RequestSchema` declares `date_postmarked` as a required `fields.Date` (ISO
format) and `action` as a required string validated by
`validate.OneOf(["Tossed", "Filled"])`; `CommentSchema` declares `author` and
`body` as required strings validated by `validate.Length(min=1)`.  The
`dump_only` fields (`index`, `datetime`) never take part in loading, and the
module-level instances use `unknown="EXCLUDE"`, so an input is modelled as
the relevant optional fields only (`none` = absent).  Marshmallow collects
one error per offending field, tagged with its standard message. -/

/-- A marshmallow validation error: the offending field and the reason. -/
structure FieldError where
  field : String
  reason : String
deriving DecidableEq

/-- Input mapping offered to `RequestSchema.load`. -/
structure RequestInput where
  date_postmarked : Option String
  action : Option String
deriving DecidableEq

/-- Input mapping offered to `CommentSchema.load`. -/
structure CommentInput where
  author : Option String
  body : Option String
deriving DecidableEq

/-- Successfully loaded `RequestSchema` data. -/
structure RequestLoaded where
  date_postmarked : MDate
  action : String
deriving DecidableEq

/-- Successfully loaded `CommentSchema` data. -/
structure CommentLoaded where
  author : String
  body : String
deriving DecidableEq

/-- Errors the `date_postmarked` field contributes on load: required, and
must parse as an ISO date. -/
def datePostmarkedErrors (v : Option String) : List FieldError :=
  match v with
  | none => [⟨"date_postmarked", "Missing data for required field."⟩]
  | some s =>
      match isoParseDate s with
      | none => [⟨"date_postmarked", "Not a valid date."⟩]
      | some _ => []

/-- Errors the `action` field contributes on load: required, and constrained
by `validate.OneOf(["Tossed", "Filled"])`. -/
def actionErrors (v : Option String) : List FieldError :=
  match v with
  | none => [⟨"action", "Missing data for required field."⟩]
  | some s =>
      if s = "Tossed" ∨ s = "Filled" then []
      else [⟨"action", "Must be one of: Tossed, Filled."⟩]

/-- Errors a required `Length(min=1)` string field named `f` contributes. -/
def lengthErrors (f : String) (v : Option String) : List FieldError :=
  match v with
  | none => [⟨f, "Missing data for required field."⟩]
  | some s =>
      if s.length ≥ 1 then []
      else [⟨f, "Shorter than minimum length 1."⟩]

/-- Embedding of `schemas.request.load` (schemas.py:60-70, instance at
line 151): collect the per-field errors; raise them if any, otherwise return
the loaded data. -/
def load_request_schema (inp : RequestInput) :
    Except (List FieldError) RequestLoaded :=
  match datePostmarkedErrors inp.date_postmarked ++ actionErrors inp.action with
  | [] =>
      match inp.date_postmarked.bind isoParseDate, inp.action with
      | some d, some a => .ok ⟨d, a⟩
      | _, _ => .error []
  | es => .error es

/-- Embedding of `schemas.comment.load` (schemas.py:44-57, instance at
line 154). -/
def load_comment_schema (inp : CommentInput) :
    Except (List FieldError) CommentLoaded :=
  match lengthErrors "author" inp.author ++ lengthErrors "body" inp.body with
  | [] =>
      match inp.author, inp.body with
      | some a, some b => .ok ⟨a, b⟩
      | _, _ => .error []
  | es => .error es

/-- The loading of input `inp` fails with a validation error naming field
`f` with reason `msg`. -/
def failsNaming {β : Type} (r : Except (List FieldError) β)
    (f msg : String) : Prop :=
  ∃ es, r = .error es ∧ (⟨f, msg⟩ : FieldError) ∈ es

/-! ### metrics (views.py:525-589)

The three metrics endpoints run SQL against SQLite.  The embedding executes
the same query plan over an explicit list of table rows:

* the `WHERE` clause keeps rows with `action = 'Filled'` (requests only) and
  `strftime('%Y', date) >= '2006-06'` — a *text* comparison (SQLite `BINARY`
  collation = byte order, embedded as `strLeb`) between the four-character
  year and the six-character constant;
* `GROUP BY yearmonth` with `count(*)`/`SUM(weight)` accumulates one bucket
  per distinct `strftime('%Y-%m', date)` value (`groupSum`);
* `ORDER BY date ASC` sorts the buckets; since all dates of a bucket share
  the zero-padded year-month key and those keys compare identically under
  byte order and chronology, this is sorting the buckets by key (`sortRows`);
* `shipping_volume` finally converts each bucket with `r[1] // 16`
  (views.py:586). -/

/-- Byte-wise (SQLite `BINARY` collation) strict comparison of char lists. -/
def strLtChars : List Char → List Char → Bool
  | [], [] => false
  | [], _ :: _ => true
  | _ :: _, [] => false
  | a :: as, b :: bs =>
      if a.toNat < b.toNat then true
      else if b.toNat < a.toNat then false
      else strLtChars as bs

/-- Byte-wise string comparison `s <= t`, as used by SQLite `>=` on text. -/
def strLeb (s t : String) : Bool :=
  !(strLtChars t.data s.data)

/-- The metrics `WHERE` clause on the year string:
`strftime('%Y', date) >= '2006-06'`. -/
def cutoffPass (yStr : String) : Bool :=
  strLeb "2006-06" yStr

/-- A `shipments` table row as read by `shipping_volume`. -/
structure ShipRow where
  dateShipped : MDate
  weight : Nat
deriving DecidableEq

/-- A `requests` table row as read by `request_counts`. -/
structure ReqMetricRow where
  datePostmarked : MDate
  action : String
deriving DecidableEq

/-- A metrics JSON payload: the bucket labels and their values (named
`counts` or `pounds` in the two endpoints). -/
structure Series where
  dates : List String
  values : List Nat
deriving DecidableEq

/-- Accumulate one keyed value into a running group-by accumulator. -/
def addRow (acc : List (String × Nat)) (k : String) (v : Nat) :
    List (String × Nat) :=
  match acc with
  | [] => [(k, v)]
  | (a, s) :: rest =>
      if a = k then (a, s + v) :: rest else (a, s) :: addRow rest k v

/-- `GROUP BY` with an additive aggregate over keyed rows. -/
def groupSum (rows : List (String × Nat)) : List (String × Nat) :=
  rows.foldl (fun acc r => addRow acc r.1 r.2) []

/-- Sort the grouped buckets by key, byte order (`ORDER BY ... ASC`). -/
def sortRows (l : List (String × Nat)) : List (String × Nat) :=
  @List.insertionSort _ (fun a b => strLeb a.1 b.1 = true)
    (fun a b => Bool.decEq (strLeb a.1 b.1) true) l

/-- Embedding of `request_counts` (views.py:525-544). -/
def request_counts (db : List ReqMetricRow) : Series :=
  let rows := (db.filter
      (fun r => r.action == "Filled" && cutoffPass (fmtY r.datePostmarked))).map
      (fun r => (fmtYM r.datePostmarked, 1))
  let grouped := sortRows (groupSum rows)
  ⟨grouped.map (·.1), grouped.map (·.2)⟩

/-- Embedding of `shipping_volume` (views.py:573-589); the values are the
reported pounds, `SUM(weight) // 16` per bucket. -/
def shipping_volume (db : List ShipRow) : Series :=
  let rows := (db.filter
      (fun s => cutoffPass (fmtY s.dateShipped))).map
      (fun s => (fmtYM s.dateShipped, s.weight))
  let grouped := sortRows (groupSum rows)
  ⟨grouped.map (·.1), grouped.map (fun r => r.2 / 16)⟩

/-! ### Group-by lemmas -/

/-- Sum of the values attached to key `k` among keyed rows `l`. -/
def keyVals (l : List (String × Nat)) (k : String) : Nat :=
  ((l.filter (fun p => p.1 == k)).map (·.2)).sum

theorem keyVals_cons (a1 : String) (a2 : Nat) (l : List (String × Nat))
    (k : String) :
    keyVals ((a1, a2) :: l) k = (if a1 = k then a2 else 0) + keyVals l k := by
  by_cases h : a1 = k <;> simp [keyVals, List.filter_cons, h]

theorem addRow_nil (k : String) (v : Nat) : addRow [] k v = [(k, v)] := rfl

theorem addRow_cons_eq {a1 k : String} (h : a1 = k) (a2 v : Nat)
    (rest : List (String × Nat)) :
    addRow ((a1, a2) :: rest) k v = (a1, a2 + v) :: rest := by
  simp [addRow, h]

theorem addRow_cons_ne {a1 k : String} (h : ¬a1 = k) (a2 v : Nat)
    (rest : List (String × Nat)) :
    addRow ((a1, a2) :: rest) k v = (a1, a2) :: addRow rest k v := by
  simp [addRow, h]

theorem keyVals_addRow (k : String) (v : Nat) (k' : String) :
    ∀ acc : List (String × Nat),
      keyVals (addRow acc k v) k' = keyVals acc k' + (if k = k' then v else 0)
  | [] => by
      rw [addRow_nil, keyVals_cons]
      by_cases h : k = k' <;> simp [keyVals, h]
  | (a1, a2) :: rest => by
      by_cases hak : a1 = k
      · rw [addRow_cons_eq hak, keyVals_cons, keyVals_cons]
        by_cases hk : a1 = k'
        · rw [if_pos hk, if_pos hk, if_pos (hak ▸ hk)]
          omega
        · rw [if_neg hk, if_neg hk, if_neg (fun h => hk (hak.symm ▸ h))]
          omega
      · rw [addRow_cons_ne hak, keyVals_cons, keyVals_cons,
          keyVals_addRow k v k' rest]
        omega

theorem keyVals_foldl (k : String) :
    ∀ (rows acc : List (String × Nat)),
      keyVals (rows.foldl (fun a r => addRow a r.1 r.2) acc) k
        = keyVals acc k + keyVals rows k
  | [], acc => by simp [keyVals]
  | (r1, r2) :: rows, acc => by
      have ih := keyVals_foldl k rows (addRow acc r1 r2)
      simp only [List.foldl_cons] at ih ⊢
      rw [ih, keyVals_addRow, keyVals_cons]
      omega

theorem keyVals_groupSum (rows : List (String × Nat)) (k : String) :
    keyVals (groupSum rows) k = keyVals rows k := by
  have h := keyVals_foldl k rows []
  simpa [groupSum, keyVals] using h

theorem fst_mem_addRow {k : String} {v : Nat} :
    ∀ {acc : List (String × Nat)} {p : String × Nat},
      p ∈ addRow acc k v → p.1 ∈ acc.map (·.1) ∨ p.1 = k
  | [], p, h => by
      rw [addRow_nil] at h
      rcases List.mem_singleton.mp h with rfl
      exact Or.inr rfl
  | (a1, a2) :: rest, p, h => by
      by_cases hak : a1 = k
      · rw [addRow_cons_eq hak] at h
        rcases List.mem_cons.mp h with rfl | h
        · exact Or.inl (List.mem_map.mpr ⟨(a1, a2), List.mem_cons_self _ _, rfl⟩)
        · exact Or.inl (List.mem_map.mpr
            ⟨p, List.mem_cons_of_mem _ h, rfl⟩)
      · rw [addRow_cons_ne hak] at h
        rcases List.mem_cons.mp h with rfl | h
        · exact Or.inl (List.mem_map.mpr ⟨(a1, a2), List.mem_cons_self _ _, rfl⟩)
        · rcases fst_mem_addRow h with h' | h'
          · rcases List.mem_map.mp h' with ⟨q, hq, hq1⟩
            exact Or.inl (List.mem_map.mpr ⟨q, List.mem_cons_of_mem _ hq, hq1⟩)
          · exact Or.inr h'

theorem mem_keys_addRow {x k : String} {v : Nat} {acc : List (String × Nat)}
    (h : x ∈ (addRow acc k v).map (·.1)) : x ∈ acc.map (·.1) ∨ x = k := by
  rcases List.mem_map.mp h with ⟨p, hp, hpx⟩
  rcases fst_mem_addRow hp with h' | h'
  · exact Or.inl (hpx ▸ h')
  · exact Or.inr (hpx ▸ h')

theorem nodup_keys_addRow (k : String) (v : Nat) :
    ∀ acc : List (String × Nat), (acc.map (·.1)).Nodup →
      ((addRow acc k v).map (·.1)).Nodup
  | [], _ => by rw [addRow_nil]; simp
  | (a1, a2) :: rest, h => by
      rw [List.map_cons, List.nodup_cons] at h
      by_cases hak : a1 = k
      · rw [addRow_cons_eq hak, List.map_cons, List.nodup_cons]
        exact ⟨h.1, h.2⟩
      · rw [addRow_cons_ne hak, List.map_cons, List.nodup_cons]
        refine ⟨fun hmem => ?_, nodup_keys_addRow k v rest h.2⟩
        rcases mem_keys_addRow hmem with h' | h'
        · exact h.1 h'
        · exact hak h'

theorem nodup_keys_foldl :
    ∀ (rows acc : List (String × Nat)), (acc.map (·.1)).Nodup →
      ((rows.foldl (fun a r => addRow a r.1 r.2) acc).map (·.1)).Nodup
  | [], _, h => h
  | r :: rows, acc, h =>
      nodup_keys_foldl rows (addRow acc r.1 r.2) (nodup_keys_addRow r.1 r.2 acc h)

theorem nodup_keys_groupSum (rows : List (String × Nat)) :
    ((groupSum rows).map (·.1)).Nodup :=
  nodup_keys_foldl rows [] (by simp)

theorem keyVals_eq_zero :
    ∀ {l : List (String × Nat)} {k : String}, k ∉ l.map (·.1) → keyVals l k = 0
  | [], _, _ => rfl
  | (a1, a2) :: rest, k, h => by
      rw [List.map_cons, List.mem_cons, not_or] at h
      rw [keyVals_cons, keyVals_eq_zero h.2,
        if_neg (fun hh => h.1 hh.symm)]

theorem mem_keyVals :
    ∀ {l : List (String × Nat)} {k : String} {v : Nat},
      (l.map (·.1)).Nodup → (k, v) ∈ l → keyVals l k = v
  | (a1, a2) :: rest, k, v, hnd, hmem => by
      rw [List.map_cons, List.nodup_cons] at hnd
      rcases List.mem_cons.mp hmem with h | h
      · injection h with h1 h2
        subst h1
        subst h2
        rw [keyVals_cons, keyVals_eq_zero hnd.1, if_pos rfl]
        omega
      · have hk : k ∈ rest.map (·.1) := List.mem_map.mpr ⟨(k, v), h, rfl⟩
        have hak : ¬a1 = k := fun he => hnd.1 (he ▸ hk)
        rw [keyVals_cons, mem_keyVals hnd.2 h, if_neg hak]
        omega

theorem sortRows_perm (l : List (String × Nat)) : List.Perm (sortRows l) l :=
  List.perm_insertionSort _ l

theorem mem_zip_map {α β γ : Type} (f : α → β) (g : α → γ) :
    ∀ (l : List α) (b : β) (c : γ),
      (b, c) ∈ (l.map f).zip (l.map g) → ∃ a ∈ l, f a = b ∧ g a = c
  | [], _, _, h => by simp at h
  | x :: l, b, c, h => by
      simp only [List.map_cons, List.zip_cons_cons, List.mem_cons] at h
      rcases h with h | h
      · injection h with h1 h2
        exact ⟨x, by simp, h1.symm, h2.symm⟩
      · obtain ⟨a, ha, hfa, hga⟩ := mem_zip_map f g l b c h
        exact ⟨a, by simp [ha], hfa, hga⟩

theorem filter_map_comm {α β : Type} (f : α → β) (p : β → Bool) :
    ∀ l : List α, (l.map f).filter p = (l.filter (fun a => p (f a))).map f
  | [] => rfl
  | x :: l => by
      by_cases h : p (f x) <;>
        simp [List.filter_cons, h, filter_map_comm f p l]

/-! ### Claim theorems -/

/-- C1: evaluating `ship_requests` on a homogeneous submission — one request
id `{1}`, whose request's inmate is assigned to unit `Alpha`, weight 32 and
postage 500 — creates a shipment carrying the submitted weight and postage
verbatim, but its `requests` collection is empty rather than `[1]`: the
`models.Shipment(requests=requests, ...)` call iterates the already-exhausted
`map` iterator, so the shipment references none of the submitted requests. -/
theorem ship_requests_shipment_references_no_requests :
    ship_requests [⟨1, ⟨some ⟨"Alpha", "100 Main St", "Box"⟩⟩⟩] [1] 32 500 "tc"
        ⟨2024, 2, 1⟩
      = .ok ⟨[], ⟨2024, 2, 1⟩, ⟨"Alpha", "100 Main St", "Box"⟩, 32, 500, "tc"⟩ := by
  decide

/-- C2: `ship_requests` does not reject every submission containing a
unit-less inmate.  With ids `[1, 2]` where request 1's inmate has no unit and
request 2's inmate is in unit `Alpha`, the `next(...)` generator silently
skips request 1 while searching for the first non-null unit, the validation
loop sees nothing left to check, and a shipment is created with a 200
response.  When every submitted request's inmate is unit-less the `next(...)`
call raises an uncaught `StopIteration` (HTTP 500), not the claimed 400. -/
theorem ship_requests_accepts_unitless_inmate :
    ship_requests [⟨1, ⟨none⟩⟩, ⟨2, ⟨some ⟨"Alpha", "", ""⟩⟩⟩] [1, 2] 16 300 "tc"
        ⟨2024, 2, 1⟩
      = .ok ⟨[], ⟨2024, 2, 1⟩, ⟨"Alpha", "", ""⟩, 16, 300, "tc"⟩
    ∧ ship_requests [⟨1, ⟨none⟩⟩] [1] 16 300 "tc" ⟨2024, 2, 1⟩ = .serverError := by
  exact ⟨by decide, by decide⟩

/-- C3: viewing an inmate's detail page truncates the stored lookup history
to its first two entries — the two most recent under the most-recent-first
ordering — and appends the new timestamp, so the resulting history holds
`min (previous size) 2 + 1` entries, never more than 3. -/
theorem view_inmate_lookup_retention (lookups : List Nat) (now : Nat) :
    view_inmate_lookups lookups now = lookups.take 2 ++ [now]
    ∧ (view_inmate_lookups lookups now).length = min lookups.length 2 + 1
    ∧ (view_inmate_lookups lookups now).length ≤ 3 := by
  refine ⟨rfl, ?_, ?_⟩
  · simp [view_inmate_lookups, List.length_append, List.length_take]
    omega
  · simp [view_inmate_lookups, List.length_append, List.length_take]

/-- C4: whenever the posted postmark-date string does not parse under the
fixed `%Y-%m-%d` format (invalid calendar dates included), `add_request`
returns the 400 message and leaves the state — requests and session —
untouched. -/
theorem add_request_invalid_date_no_mutation (st : AddState) (dateStr : String)
    (actionField : Option String) (today : MDate)
    (h : parseDate dateStr = none) :
    add_request st dateStr actionField today
      = (.badRequest "Please enter the USPS postmark date on the envelope.",
         st) := by
  simp [add_request, h]

/-- Witness for C4 at the invalid calendar date `"2024-02-30"`. -/
theorem add_request_invalid_date_no_mutation_witness :
    parseDate "2024-02-30" = none
    ∧ add_request ⟨[], none⟩ "2024-02-30" none ⟨2024, 3, 1⟩
        = (.badRequest "Please enter the USPS postmark date on the envelope.",
           ⟨[], none⟩) :=
  ⟨by decide,
   add_request_invalid_date_no_mutation ⟨[], none⟩ "2024-02-30" none
     ⟨2024, 3, 1⟩ (by decide)⟩

/-- C5: on a valid postmark date with no `action` form field, `add_request`
appends a request whose action defaults to `"Filled"` and whose
`date_processed` is the submission date (`date.today()`), caching the
formatted postmark date in the session. -/
theorem add_request_default_action (st : AddState) (dateStr : String)
    (today : MDate) (pd : MDate) (h : parseDate dateStr = some pd) :
    add_request st dateStr none today
      = (.okJson,
         ⟨st.requests ++ [⟨"Filled", pd, today⟩], some (fmtDate pd)⟩) := by
  simp [add_request, h, Option.getD]

/-- Witness for C5 at postmark date `"2024-02-01"`. -/
theorem add_request_default_action_witness :
    parseDate "2024-02-01" = some ⟨2024, 2, 1⟩
    ∧ add_request ⟨[], none⟩ "2024-02-01" none ⟨2024, 3, 5⟩
        = (.okJson,
           ⟨[⟨"Filled", ⟨2024, 2, 1⟩, ⟨2024, 3, 5⟩⟩], some "2024-02-01"⟩) :=
  ⟨by decide,
   add_request_default_action ⟨[], none⟩ "2024-02-01" ⟨2024, 3, 5⟩ ⟨2024, 2, 1⟩
     (by decide)⟩

/-- C6: the validated-search dispatch renders the search form (with the
warning flashed, no redirect) on zero matches, redirects to the matching
inmate's detail view on exactly one match, and renders the list view on two
or more matches. -/
theorem search_inmates_result_cases (errors : List String) (i x y : InmateRow)
    (rest : List InmateRow) :
    search_inmates_dispatch errors []
        = ⟨errors ++ ["no inmates matched your search"], .searchForm⟩
    ∧ search_inmates_dispatch errors [i] = ⟨errors, .redirectView i.autoid⟩
    ∧ search_inmates_dispatch errors (x :: y :: rest)
        = ⟨errors, .listInmates (x :: y :: rest)⟩ := by
  refine ⟨rfl, ?_, ?_⟩
  · simp [search_inmates_dispatch, List.headI]
  · simp [search_inmates_dispatch]

/-- C7: every bucket reported by `shipping_volume` equals the bucket month's
summed shipment weight in ounces integer-divided by 16; in particular a lone
32-ounce shipment in 2023-05 reports 2 pounds, and a 33-ounce one also
reports 2 (truncation, not rounding). -/
theorem shipping_volume_pounds_truncated (db : List ShipRow) :
    (shipping_volume db).values
      = (shipping_volume db).dates.map (fun mo =>
          (((db.filter (fun s => cutoffPass (fmtY s.dateShipped))).filter
              (fun s => fmtYM s.dateShipped == mo)).map (·.weight)).sum / 16)
    ∧ shipping_volume [⟨⟨2023, 5, 10⟩, 32⟩] = ⟨["2023-05"], [2]⟩
    ∧ shipping_volume [⟨⟨2023, 5, 10⟩, 33⟩] = ⟨["2023-05"], [2]⟩ := by
  refine ⟨?_, by decide, by decide⟩
  show (sortRows (groupSum ((db.filter
          (fun s => cutoffPass (fmtY s.dateShipped))).map
          (fun s => (fmtYM s.dateShipped, s.weight))))).map (fun r => r.2 / 16)
    = ((sortRows (groupSum ((db.filter
          (fun s => cutoffPass (fmtY s.dateShipped))).map
          (fun s => (fmtYM s.dateShipped, s.weight))))).map (·.1)).map
        (fun mo =>
          (((db.filter (fun s => cutoffPass (fmtY s.dateShipped))).filter
              (fun s => fmtYM s.dateShipped == mo)).map (·.weight)).sum / 16)
  rw [List.map_map]
  apply List.map_congr_left
  rintro ⟨k, v⟩ hp
  have hmem : (k, v) ∈ groupSum ((db.filter
      (fun s => cutoffPass (fmtY s.dateShipped))).map
      (fun s => (fmtYM s.dateShipped, s.weight))) :=
    (sortRows_perm _).mem_iff.mp hp
  have hv := mem_keyVals (nodup_keys_groupSum _) hmem
  rw [keyVals_groupSum] at hv
  have hkv : keyVals ((db.filter
      (fun s => cutoffPass (fmtY s.dateShipped))).map
      (fun s => (fmtYM s.dateShipped, s.weight))) k
      = (((db.filter (fun s => cutoffPass (fmtY s.dateShipped))).filter
          (fun s => fmtYM s.dateShipped == k)).map (·.weight)).sum := by
    rw [keyVals, filter_map_comm]
    simp only [List.map_map]
    simp only [List.filter_filter]
    exact congrArg List.sum (List.map_congr_left fun a _ => rfl)
  show v / 16
    = (((db.filter (fun s => cutoffPass (fmtY s.dateShipped))).filter
        (fun s => fmtYM s.dateShipped == k)).map (·.weight)).sum / 16
  rw [← hkv, hv]

/-- C8: the metrics `WHERE` clause compares the four-character
`strftime('%Y', ...)` year string with the six-character constant
`'2006-06'`; under text comparison every 2006 date fails the test, so the
month 2006-07 — on/after the claimed cutoff, as the third conjunct records —
yields no bucket in `request_counts` or `shipping_volume`, while 2007 months
are included. -/
theorem metrics_cutoff_drops_2006_months :
    request_counts [⟨⟨2006, 7, 15⟩, "Filled"⟩] = ⟨[], []⟩
    ∧ shipping_volume [⟨⟨2006, 7, 15⟩, 32⟩] = ⟨[], []⟩
    ∧ strLeb "2006-06" "2006-07" = true
    ∧ request_counts [⟨⟨2007, 3, 15⟩, "Filled"⟩] = ⟨["2007-03"], [1]⟩ := by
  exact ⟨by decide, by decide, by decide, by decide⟩

/-- C9: loading through `RequestSchema` fails with an error naming the field
and reason when `date_postmarked` is absent or malformed or when `action`
lies outside `{"Tossed", "Filled"}`, and loading through `CommentSchema`
fails likewise when `author` or `body` is absent or empty. -/
theorem schema_required_field_errors (act dstr : String)
    (h1 : ¬act = "Tossed") (h2 : ¬act = "Filled")
    (h3 : isoParseDate dstr = none) :
    failsNaming (load_request_schema ⟨none, some "Filled"⟩)
      "date_postmarked" "Missing data for required field."
    ∧ failsNaming (load_request_schema ⟨some dstr, some "Filled"⟩)
      "date_postmarked" "Not a valid date."
    ∧ failsNaming (load_request_schema ⟨some "2024-01-02", some act⟩)
      "action" "Must be one of: Tossed, Filled."
    ∧ failsNaming (load_comment_schema ⟨none, some "hi"⟩)
      "author" "Missing data for required field."
    ∧ failsNaming (load_comment_schema ⟨some "", some "hi"⟩)
      "author" "Shorter than minimum length 1."
    ∧ failsNaming (load_comment_schema ⟨some "x", none⟩)
      "body" "Missing data for required field."
    ∧ failsNaming (load_comment_schema ⟨some "x", some ""⟩)
      "body" "Shorter than minimum length 1." := by
  refine ⟨⟨_, rfl, by simp⟩, ?_, ?_, ⟨_, rfl, by simp⟩, ⟨_, rfl, by simp⟩,
    ⟨_, rfl, by simp⟩, ⟨_, rfl, by simp⟩⟩
  · refine ⟨[⟨"date_postmarked", "Not a valid date."⟩], ?_, by simp⟩
    simp [load_request_schema, datePostmarkedErrors, actionErrors, h3]
  · refine ⟨[⟨"action", "Must be one of: Tossed, Filled."⟩], ?_, by simp⟩
    have hd : datePostmarkedErrors (some "2024-01-02") = [] := rfl
    simp [load_request_schema, hd, actionErrors, h1, h2]

/-- Witness for C9 at action `"Returned"` and date string `"2024-02-30"`. -/
theorem schema_required_field_errors_witness :
    (¬"Returned" = "Tossed") ∧ (¬"Returned" = "Filled")
    ∧ isoParseDate "2024-02-30" = none
    ∧ (failsNaming (load_request_schema ⟨none, some "Filled"⟩)
        "date_postmarked" "Missing data for required field."
      ∧ failsNaming (load_request_schema ⟨some "2024-02-30", some "Filled"⟩)
        "date_postmarked" "Not a valid date."
      ∧ failsNaming (load_request_schema ⟨some "2024-01-02", some "Returned"⟩)
        "action" "Must be one of: Tossed, Filled."
      ∧ failsNaming (load_comment_schema ⟨none, some "hi"⟩)
        "author" "Missing data for required field."
      ∧ failsNaming (load_comment_schema ⟨some "", some "hi"⟩)
        "author" "Shorter than minimum length 1."
      ∧ failsNaming (load_comment_schema ⟨some "x", none⟩)
        "body" "Missing data for required field."
      ∧ failsNaming (load_comment_schema ⟨some "x", some ""⟩)
        "body" "Shorter than minimum length 1.") :=
  ⟨by decide, by decide, by decide,
   schema_required_field_errors "Returned" "2024-02-30" (by decide) (by decide)
     (by decide)⟩

/-- C10: a request whose inmate exists but has no unit gets a 200 JSON
projection from `request_info` with `unit_name` and `unit_shipping_method`
both the literal `"N/A"`, and the only 400 arises when the request has no
associated inmate. -/
theorem request_info_unit_na (r : ReqInfoRec) (inm : InmateInfo)
    (h1 : r.inmate = some inm) (h2 : inm.unit = none) :
    request_info r
      = .okJson ⟨inm.jurisdiction, inm.last_name ++ ", " ++ inm.first_name,
          pad 8 inm.id, r.autoid, "N/A", "N/A"⟩
    ∧ ∀ rr : ReqInfoRec,
        (∃ msg, request_info rr = .badRequest msg) ↔ rr.inmate = none := by
  constructor
  · simp [request_info, h1, pyStrOr, h2]
  · intro rr
    cases hrr : rr.inmate with
    | none => simp [request_info, hrr]
    | some i => simp [request_info, hrr]

/-- Witness for C10 at a concrete request whose inmate has no unit. -/
theorem request_info_unit_na_witness :
    (⟨7, some ⟨"Texas", "John", "Doe", 12345, none⟩⟩ : ReqInfoRec).inmate
        = some ⟨"Texas", "John", "Doe", 12345, none⟩
    ∧ (⟨"Texas", "John", "Doe", 12345, none⟩ : InmateInfo).unit = none
    ∧ request_info ⟨7, some ⟨"Texas", "John", "Doe", 12345, none⟩⟩
        = .okJson ⟨"Texas", "Doe, John", "00012345", 7, "N/A", "N/A"⟩ :=
  ⟨rfl, rfl,
   (request_info_unit_na ⟨7, some ⟨"Texas", "John", "Doe", 12345, none⟩⟩
     ⟨"Texas", "John", "Doe", 12345, none⟩ rfl rfl).1⟩

end Ibp
